import Mathlib

/-
Shallow embedding of the keyv-rust store adapters.

Embedded source files:
  * src/store/adapter/sled/sled.rs        (SledStore: get / set / remove / remove_many / clear)
  * src/store/adapter/sled/builder.rs     (SledStoreBuilder::build)
  * src/store/adapter/postgres/builder.rs (PostgresStoreBuilder::build)

External collaborators are modelled by their interfaces:
  * the sled engine (an ordered byte map whose operations can fail with
    engine-level I/O errors) is modelled as a map `String → Option String`
    together with a per-key failure oracle;
  * the serde_json codec is a parameter (a pair of encode / decode
    functions); a small executable JSON codec is provided as a concrete
    instance for witnesses;
  * network / filesystem effects of the builders (PgPoolOptions::connect,
    sled::open, the HOME environment variable) are passed in as oracles.

Rust `Result` is `Except`; a Rust panic (`expect` / `unwrap`) is an explicit
`BuildOutcome.panic` value, kept distinct from returning an error.
-/

/-- Modelled from the spec: the library-wide default namespace/table-name
constant `DEFAUTL_NAMESPACE_NAME` (its defining file is not part of the
embedded slice); the spec gives `"keyv"` as the default value. -/
def DEFAUTL_NAMESPACE_NAME : String := "keyv"

/-- The generic structured value representation (serde_json::Value).
Numbers are modelled as integers; floating-point numbers are outside the
scope of this embedding. -/
inductive JsonValue where
  | null
  | bool (b : Bool)
  | num (n : Int)
  | str (s : String)
  | arr (items : List JsonValue)
  | obj (fields : List (String × JsonValue))

/-- Modelled from the spec: the closed error taxonomy `StoreError`
(its defining file is not part of the embedded slice).  Constructor
shapes follow the uses in the adapter sources:
`StoreError::ConnectionError(String)`, `StoreError::SerializationError
{ source }`, `StoreError::QueryError(String)`. -/
inductive StoreError where
  | ConnectionError (msg : String)
  | SerializationError (source : String)
  | QueryError (msg : String)
deriving DecidableEq

/-- The value codec interface (serde_json::to_string / serde_json::from_str),
an external collaborator of the adapters. -/
structure Codec where
  to_string : JsonValue → Except String String
  from_str : String → Except String JsonValue

/-- Outcome of a builder's `build()`: a constructed store, a returned
`StoreError`, or a Rust panic (from `expect` / `unwrap`). -/
inductive BuildOutcome (α : Type) where
  | ok (store : α)
  | err (e : StoreError)
  | panic (msg : String)

/-- The sled engine database (external collaborator, sled::Db): an ordered
map from keys to stored byte strings, together with a per-key failure
oracle modelling engine-level I/O errors (`failOn k = some msg` means any
engine operation on key `k` fails with error message `msg`). -/
structure SledDb where
  entries : String → Option String
  failOn : String → Option String

/-- Point update of a map: store `v` under `k`. -/
def mapSet (f : String → Option String) (k v : String) : String → Option String :=
  fun x => if x = k then some v else f x

/-- Point removal from a map: drop the entry under `k`. -/
def mapErase (f : String → Option String) (k : String) : String → Option String :=
  fun x => if x = k then none else f x

/-- The engine state after a successful removal of `k`. -/
def dbErase (db : SledDb) (k : String) : SledDb :=
  { db with entries := mapErase db.entries k }

/-- The engine state after successful removal of each key in `ks`, in order. -/
def dbEraseAll (db : SledDb) (ks : List String) : SledDb :=
  ks.foldl dbErase db

/-- sled::Db::get — returns the stored value (if any), or an engine error. -/
def dbGet (db : SledDb) (k : String) : Except String (Option String) :=
  match db.failOn k with
  | some e => .error e
  | none => .ok (db.entries k)

/-- sled::Db::insert — upserts, returning the previous value (if any),
or an engine error. -/
def dbInsert (db : SledDb) (k v : String) : Except String (Option String × SledDb) :=
  match db.failOn k with
  | some e => .error e
  | none => .ok (db.entries k, { db with entries := mapSet db.entries k v })

/-- sled::Db::remove — deletes, returning the previous value (if any),
or an engine error. -/
def dbRemove (db : SledDb) (k : String) : Except String (Option String × SledDb) :=
  match db.failOn k with
  | some e => .error e
  | none => .ok (db.entries k, dbErase db k)

/-- The sled-backed store (src/store/adapter/sled/sled.rs).  `IVec` values
are modelled as `String`: the adapter only ever stores `str2ivec` of a
serialized string and reads it back with `ivec2str`, which are mutually
inverse on UTF-8 data. -/
structure SledStore where
  db : SledDb
  db_name : String

/-- SledStore::get (sled.rs lines 22-32): engine lookup, then decode;
absent key is `Ok none`, a decode failure is a `SerializationError`, an
engine failure is a `QueryError`. -/
def SledStore.get (c : Codec) (s : SledStore) (k : String) :
    Except StoreError (Option JsonValue) :=
  match dbGet s.db k with
  | .ok (some val) =>
    match c.from_str val with
    | .ok v => .ok (some v)
    | .error e => .error (.SerializationError e)
  | .ok none => .ok none
  | .error e => .error (.QueryError e)

/-- SledStore::set (sled.rs lines 34-41): encode the value, then engine
insert.  The TTL argument is bound as `_` in the source and never used.
Returns the store state paired with the Rust `Result`. -/
def SledStore.set (c : Codec) (s : SledStore) (k : String) (v : JsonValue)
    (ttl : Option Nat) : SledStore × Except StoreError Unit :=
  match c.to_string v with
  | .error e => (s, .error (.SerializationError e))
  | .ok value_str =>
    match dbInsert s.db k value_str with
    | .ok (_, db') => ({ s with db := db' }, .ok ())
    | .error e => (s, .error (.QueryError e))

/-- SledStore::remove (sled.rs lines 43-48): engine remove; the previous
value is discarded, an engine failure becomes a `QueryError`. -/
def SledStore.remove (s : SledStore) (k : String) : SledStore × Except StoreError Unit :=
  match dbRemove s.db k with
  | .ok (_, db') => ({ s with db := db' }, .ok ())
  | .error e => (s, .error (.QueryError e))

/-- SledStore::remove_many (sled.rs lines 50-58): sequential engine
removals in list order; the first engine failure is returned as a
`QueryError` and no later key is attempted. -/
def SledStore.remove_many (s : SledStore) : List String → SledStore × Except StoreError Unit
  | [] => (s, .ok ())
  | k :: rest =>
    match dbRemove s.db k with
    | .ok (_, db') => SledStore.remove_many { s with db := db' } rest
    | .error e => (s, .error (.QueryError e))

/-- SledStore::clear (sled.rs lines 60-62): literally `Ok(())`. -/
def SledStore.clear (s : SledStore) : SledStore × Except StoreError Unit :=
  (s, .ok ())

/-- SledStoreBuilder (src/store/adapter/sled/builder.rs): optional
pre-supplied db handle and optional database path. -/
structure SledStoreBuilder where
  db : Option SledDb
  db_name : Option String

/-- SledStoreBuilder::build (builder.rs lines 99-120).  `home` models
`std::env::var("HOME")` (`none` = unset), `sledOpen` models `sled::open`.
The source resolves the path (defaulting with a printed notice), reuses a
supplied db handle if present, and otherwise runs
`db_name.replace("~", std::env::var("HOME").unwrap())` — the `unwrap`
panics whenever HOME is unset, before `sled::open` is reached; an open
failure is wrapped as `ConnectionError`.  The `fs::metadata` existence
check in the source only prints a notice and has no modelled effect. -/
def SledStoreBuilder.build (home : Option String)
    (sledOpen : String → Except String SledDb) (b : SledStoreBuilder) :
    BuildOutcome SledStore :=
  let db_name := match b.db_name with
    | some n => n
    | none => DEFAUTL_NAMESPACE_NAME
  match b.db with
  | some db => .ok { db := db, db_name := db_name }
  | none =>
    match home with
    | none => .panic "called Result::unwrap() on an Err value: NotPresent"
    | some h =>
      let ab_db_name := db_name.replace "~" h
      match sledOpen ab_db_name with
      | .error e => .err (.ConnectionError e)
      | .ok db => .ok { db := db, db_name := db_name }

/-- An abstract postgres connection pool handle (sqlx::PgPool, external). -/
structure PgPool where
  token : Nat
deriving DecidableEq

/-- The postgres-backed store's fields, as constructed by its builder. -/
structure PostgresStore where
  pool : PgPool
  table_name : String
  schema : Option String
deriving DecidableEq

/-- PostgresStoreBuilder (src/store/adapter/postgres/builder.rs): optional
URI, optional pre-supplied pool, optional table name, optional schema. -/
structure PostgresStoreBuilder where
  uri : Option String
  pool : Option PgPool
  table_name : Option String
  schema : Option String

/-- PostgresStoreBuilder::build (builder.rs lines 130-160).  `connect`
models `PgPoolOptions::new().connect(uri)`.  A supplied pool wins;
otherwise the source runs `self.uri.expect("PostgresStore requires either
a URI or an existing pool to be set")` — a panic when both are absent —
and maps a connect failure to `ConnectionError("Failed to connect to the
database")` (the engine error message is discarded).  The table name
defaults with a warning-level log. -/
def PostgresStoreBuilder.build (connect : String → Except String PgPool)
    (b : PostgresStoreBuilder) : BuildOutcome PostgresStore :=
  let poolResult : BuildOutcome PgPool :=
    match b.pool with
    | some pool => .ok pool
    | none =>
      match b.uri with
      | none => .panic "PostgresStore requires either a URI or an existing pool to be set"
      | some uri =>
        match connect uri with
        | .error _ => .err (.ConnectionError "Failed to connect to the database")
        | .ok pool => .ok pool
  match poolResult with
  | .panic m => .panic m
  | .err e => .err e
  | .ok pool =>
    let table_name := match b.table_name with
      | some t => t
      | none => DEFAUTL_NAMESPACE_NAME
    .ok { pool := pool, table_name := table_name, schema := b.schema }

/-- Claim C1: the claim says Postgres `build()` with neither a URI nor a
pool fails with a `ConnectionError` rather than panicking; the code
instead panics via `self.uri.expect(...)` for every connection oracle and
every table/schema configuration — it never returns a `StoreError`. -/
theorem postgresBuild_missingEndpoint_panics :
    ∀ (connect : String → Except String PgPool) (tn sch : Option String),
      PostgresStoreBuilder.build connect
          { uri := none, pool := none, table_name := tn, schema := sch } =
        .panic "PostgresStore requires either a URI or an existing pool to be set" := by
  intro connect tn sch
  rfl

/-- Claim C2: the claim says the sled builder (without a pre-supplied db
handle) fails with an error only when HOME is unset and the path contains
the `~` shorthand; the code instead calls
`std::env::var("HOME").unwrap()` unconditionally, so with HOME unset it
panics even for the path "keyv-data", which contains no `~` — it neither
succeeds nor returns an error. -/
theorem sledBuild_homeUnset_panics :
    ∀ sledOpen : String → Except String SledDb,
      SledStoreBuilder.build none sledOpen { db := none, db_name := some "keyv-data" } =
        .panic "called Result::unwrap() on an Err value: NotPresent" := by
  intro sledOpen
  rfl

/-- Claim C5: the sled backend ignores TTL — `set k v (some ttl)` is the
very same state transformer and result as `set k v none`, for every codec,
store state, key, value and TTL; in particular every subsequent `get` is
independent of the TTL argument. -/
theorem sledSet_ignoresTtl (c : Codec) (s : SledStore) (k : String)
    (v : JsonValue) (ttl : Nat) :
    SledStore.set c s k v (some ttl) = SledStore.set c s k v none := rfl

/-- Claim C9: SledStore::clear is a deliberate no-op: it returns `Ok ()`
and leaves the store state unchanged, so every subsequent `get` returns
the same result as before the call. -/
theorem sledClear_noop (s : SledStore) :
    SledStore.clear s = (s, .ok ()) ∧
      ∀ (c : Codec) (k : String),
        SledStore.get c (SledStore.clear s).1 k = SledStore.get c s k :=
  ⟨rfl, fun _ _ => rfl⟩

theorem mapSet_same (f : String → Option String) (k v : String) :
    mapSet f k v k = some v := by
  simp [mapSet]

theorem mapSet_other (f : String → Option String) (k v x : String) (h : x ≠ k) :
    mapSet f k v x = f x := by
  simp [mapSet, h]

theorem mapErase_same (f : String → Option String) (k : String) :
    mapErase f k k = none := by
  simp [mapErase]

theorem mapErase_other (f : String → Option String) (k x : String) (h : x ≠ k) :
    mapErase f k x = f x := by
  simp [mapErase, h]

theorem mapErase_idem (f : String → Option String) (k : String) :
    mapErase (mapErase f k) k = mapErase f k := by
  funext x
  by_cases hx : x = k <;> simp [mapErase, hx]

theorem dbErase_idem (db : SledDb) (k : String) :
    dbErase (dbErase db k) k = dbErase db k := by
  simp [dbErase, mapErase_idem]

theorem dbErase_failOn (db : SledDb) (k : String) :
    (dbErase db k).failOn = db.failOn := rfl

theorem dbErase_entries_same (db : SledDb) (k : String) :
    (dbErase db k).entries k = none := by
  simp [dbErase, mapErase]

/-- Two store states that agree on the engine failure oracle and the stored
entry at key `k` give the same `get` result at `k`. -/
theorem get_congr_at (c : Codec) (s s' : SledStore) (k : String)
    (hf : s'.db.failOn k = s.db.failOn k) (he : s'.db.entries k = s.db.entries k) :
    SledStore.get c s' k = SledStore.get c s k := by
  unfold SledStore.get dbGet
  rw [hf, he]

/-- Claim C4: on the sled backend, a successful `set k v none` followed by
`get k` returns `some v`, for every codec on which `v` round-trips
(`to_string v = ok str` and `from_str str = ok v` — the serde_json
round-trip contract) and every engine state that does not fail on `k`. -/
theorem sledSetGet_roundtrip (c : Codec) (s : SledStore) (k : String)
    (v : JsonValue) (str : String)
    (h1 : c.to_string v = .ok str) (h2 : c.from_str str = .ok v)
    (h3 : s.db.failOn k = none) :
    (SledStore.set c s k v none).2 = .ok () ∧
      SledStore.get c (SledStore.set c s k v none).1 k = .ok (some v) := by
  simp [SledStore.set, SledStore.get, dbInsert, dbGet, h1, h2, h3, mapSet]

/-- Claim C6: `get` distinguishes absence from codec failure: when the
engine does not fail on `k`, an absent entry gives `Ok none`; a stored
entry whose bytes do not decode gives a `SerializationError`; a stored
entry that decodes gives `Ok (some v)`. -/
theorem sledGet_distinguishesAbsenceFromCodecFailure (c : Codec) (s : SledStore)
    (k : String) (h : s.db.failOn k = none) :
    (s.db.entries k = none → SledStore.get c s k = .ok none) ∧
      (∀ stored : String, s.db.entries k = some stored →
        (∀ e, c.from_str stored = .error e →
            SledStore.get c s k = .error (.SerializationError e)) ∧
          (∀ v, c.from_str stored = .ok v →
            SledStore.get c s k = .ok (some v))) := by
  constructor
  · intro habs
    simp [SledStore.get, dbGet, h, habs]
  · intro stored hst
    constructor
    · intro e he
      simp [SledStore.get, dbGet, h, hst, he]
    · intro v hv
      simp [SledStore.get, dbGet, h, hst, hv]

/-- Claim C7: sled `remove` is idempotent: when the engine does not fail
on `k`, removing `k` succeeds (whether or not `k` was present), leaves `k`
absent, and a second `remove k` also succeeds and leaves the state
unchanged. -/
theorem sledRemove_idempotent (s : SledStore) (k : String)
    (h : s.db.failOn k = none) :
    (SledStore.remove s k).2 = .ok () ∧
      ((SledStore.remove s k).1).db.entries k = none ∧
      SledStore.remove (SledStore.remove s k).1 k = ((SledStore.remove s k).1, .ok ()) := by
  refine ⟨?_, ?_, ?_⟩
  · simp [SledStore.remove, dbRemove, h]
  · simp [SledStore.remove, dbRemove, h, dbErase, mapErase]
  · simp [SledStore.remove, dbRemove, h, dbErase_failOn, dbErase_idem]

/-- Claim C8: last-write-wins upsert: after a successful `set k v1 t1`
followed by a successful `set k v2 t2`, `get k` returns `some v2`, for
every codec on which `v1` and `v2` serialize and `v2` round-trips, and
every engine state that does not fail on `k`. -/
theorem sledSet_lastWriteWins (c : Codec) (s : SledStore) (k : String)
    (v1 v2 : JsonValue) (t1 t2 : Option Nat) (s1 s2 : String)
    (h1 : c.to_string v1 = .ok s1) (h2 : c.to_string v2 = .ok s2)
    (h3 : c.from_str s2 = .ok v2) (h4 : s.db.failOn k = none) :
    (SledStore.set c s k v1 t1).2 = .ok () ∧
      (SledStore.set c (SledStore.set c s k v1 t1).1 k v2 t2).2 = .ok () ∧
      SledStore.get c (SledStore.set c (SledStore.set c s k v1 t1).1 k v2 t2).1 k =
        .ok (some v2) := by
  refine ⟨?_, ?_, ?_⟩ <;>
    simp [SledStore.set, SledStore.get, dbInsert, dbGet, h1, h2, h3, h4, mapSet]

/-- Claim C10: per-key footprint: for every distinct key `k' ≠ k`, a `set`
on `k` (successful or not) and a `remove` of `k` (successful or not) leave
the `get` result at `k'` unchanged. -/
theorem sled_perKeyFrame (c : Codec) (s : SledStore) (k k' : String)
    (v : JsonValue) (ttl : Option Nat) (h : k' ≠ k) :
    SledStore.get c (SledStore.set c s k v ttl).1 k' = SledStore.get c s k' ∧
      SledStore.get c (SledStore.remove s k).1 k' = SledStore.get c s k' := by
  constructor
  · unfold SledStore.set
    cases hts : c.to_string v with
    | error e => rfl
    | ok str =>
      unfold dbInsert
      cases hf : s.db.failOn k with
      | some e => rfl
      | none =>
        exact get_congr_at c s _ k' rfl (mapSet_other s.db.entries k str k' h)
  · unfold SledStore.remove dbRemove
    cases hf : s.db.failOn k with
    | some e => rfl
    | none =>
      exact get_congr_at c s _ k' rfl (mapErase_other s.db.entries k k' h)

theorem removeMany_halt_aux :
    ∀ (pre : List String) (s : SledStore) (k : String) (post : List String) (e : String),
      (∀ x ∈ pre, s.db.failOn x = none) → s.db.failOn k = some e →
      SledStore.remove_many s (pre ++ k :: post) =
        ({ s with db := dbEraseAll s.db pre }, .error (.QueryError e))
  | [], s, k, post, e, _, hk => by
    simp [SledStore.remove_many, dbRemove, hk, dbEraseAll]
  | x :: xs, s, k, post, e, hpre, hk => by
    have hx : s.db.failOn x = none := hpre x (List.mem_cons_self x xs)
    have ih := removeMany_halt_aux xs { s with db := dbErase s.db x } k post e
      (fun y hy => hpre y (List.mem_cons_of_mem x hy)) hk
    simp only [List.cons_append, SledStore.remove_many, dbRemove, hx, List.append_eq]
    rw [ih]
    rfl

theorem removeMany_ok_aux :
    ∀ (keys : List String) (s : SledStore),
      (∀ x ∈ keys, s.db.failOn x = none) →
      SledStore.remove_many s keys = ({ s with db := dbEraseAll s.db keys }, .ok ())
  | [], s, _ => by
    simp [SledStore.remove_many, dbEraseAll]
  | x :: xs, s, hall => by
    have hx : s.db.failOn x = none := hall x (List.mem_cons_self x xs)
    have ih := removeMany_ok_aux xs { s with db := dbErase s.db x }
      (fun y hy => hall y (List.mem_cons_of_mem x hy))
    simp only [SledStore.remove_many, dbRemove, hx]
    rw [ih]
    rfl

/-- Claim C3: `remove_many` is sequential removal in list order that halts
at the first engine failure: if every key of `pre` succeeds and `k` fails
with engine error `e`, then `remove_many (pre ++ k :: post)` returns the
`QueryError e`, the removals of `pre` remain applied, and no key of `post`
is attempted (the result does not depend on `post`); if every removal
succeeds, `remove_many` returns `Ok ()` with all removals applied. -/
theorem sledRemoveMany_sequentialHalt (s : SledStore) :
    (∀ (pre : List String) (k : String) (post : List String) (e : String),
        (∀ x ∈ pre, s.db.failOn x = none) → s.db.failOn k = some e →
        SledStore.remove_many s (pre ++ k :: post) =
          ({ s with db := dbEraseAll s.db pre }, .error (.QueryError e))) ∧
      (∀ keys : List String, (∀ x ∈ keys, s.db.failOn x = none) →
        SledStore.remove_many s keys = ({ s with db := dbEraseAll s.db keys }, .ok ())) :=
  ⟨fun pre k post e h1 h2 => removeMany_halt_aux pre s k post e h1 h2,
    fun keys h => removeMany_ok_aux keys s h⟩

/-- One hex digit (lowercase) for a value below 16. -/
def hexDigit (n : Nat) : Char :=
  if n < 10 then Char.ofNat (48 + n) else Char.ofNat (87 + n)

/-- The hex digit at nibble position `i` (from the least significant). -/
def nibbleAt (n i : Nat) : Char :=
  hexDigit (n / 16 ^ i % 16)

/-- Four-digit lowercase hex rendering of a code point below 0x10000. -/
def hex4 (n : Nat) : String :=
  String.mk [nibbleAt n 3, nibbleAt n 2, nibbleAt n 1, nibbleAt n 0]

/-- JSON string escaping of one character, in serde_json's style: quote and
backslash are backslash-escaped, common control characters use their short
escapes, remaining control characters use a unicode escape. -/
def jsonEscapeChar (c : Char) : String :=
  if c = '"' then "\\\""
  else if c = '\\' then "\\\\"
  else if c = '\n' then "\\n"
  else if c = '\r' then "\\r"
  else if c = '\t' then "\\t"
  else if c.toNat < 32 then "\\u" ++ hex4 c.toNat
  else String.singleton c

/-- A JSON string literal: quoted, escaped content. -/
def jsonEscape (s : String) : String :=
  "\"" ++ String.join (s.toList.map jsonEscapeChar) ++ "\""

mutual

/-- Serialize a `JsonValue` in serde_json's compact format. -/
def jsonSerialize : JsonValue → String
  | .null => "null"
  | .bool true => "true"
  | .bool false => "false"
  | .num n => toString n
  | .str s => jsonEscape s
  | .arr items => "[" ++ serializeItems items ++ "]"
  | .obj fields => "\x7b" ++ serializeFields fields ++ "\x7d"

/-- Comma-separated serialization of array items. -/
def serializeItems : List JsonValue → String
  | [] => ""
  | [v] => jsonSerialize v
  | v :: rest => jsonSerialize v ++ "," ++ serializeItems rest

/-- Comma-separated serialization of object fields. -/
def serializeFields : List (String × JsonValue) → String
  | [] => ""
  | [(k, v)] => jsonEscape k ++ ":" ++ jsonSerialize v
  | (k, v) :: rest => jsonEscape k ++ ":" ++ jsonSerialize v ++ "," ++ serializeFields rest

end

/-- JSON whitespace. -/
def isJsonWs (c : Char) : Bool :=
  (c = ' ') || (c = '\n') || (c = '\t') || (c = '\r')

/-- Drop leading JSON whitespace. -/
def skipWs : List Char → List Char
  | [] => []
  | c :: rest => if isJsonWs c then skipWs rest else c :: rest

/-- ASCII decimal digit test. -/
def isDigit (c : Char) : Bool :=
  48 ≤ c.toNat && c.toNat ≤ 57

/-- Split a leading run of decimal digits from the rest. -/
def takeDigits : List Char → List Char × List Char
  | [] => ([], [])
  | c :: rest =>
    if isDigit c then
      let (ds, r) := takeDigits rest
      (c :: ds, r)
    else ([], c :: rest)

/-- Decimal value of a digit run. -/
def digitsToNat (ds : List Char) : Nat :=
  ds.foldl (fun acc c => acc * 10 + (c.toNat - 48)) 0

/-- Value of one hex digit, if any. -/
def hexVal (c : Char) : Option Nat :=
  if 48 ≤ c.toNat ∧ c.toNat ≤ 57 then some (c.toNat - 48)
  else if 97 ≤ c.toNat ∧ c.toNat ≤ 102 then some (c.toNat - 87)
  else if 65 ≤ c.toNat ∧ c.toNat ≤ 70 then some (c.toNat - 55)
  else none

/-- Decode a single-character JSON escape. -/
def escDecode (e : Char) : Option Char :=
  if e = '"' then some '"'
  else if e = '\\' then some '\\'
  else if e = '/' then some '/'
  else if e = 'n' then some '\n'
  else if e = 'r' then some '\r'
  else if e = 't' then some '\t'
  else if e = 'b' then some (Char.ofNat 8)
  else if e = 'f' then some (Char.ofNat 12)
  else none

/-- Parse the content of a JSON string literal after the opening quote:
returns the decoded characters and the input after the closing quote. -/
def parseStringChars : List Char → Except String (List Char × List Char)
  | [] => .error "unexpected end of input in string"
  | c :: rest =>
    if c = '"' then .ok ([], rest)
    else if c = '\\' then
      match rest with
      | [] => .error "unexpected end of input in escape"
      | e :: rest2 =>
        if e = 'u' then
          match rest2 with
          | a :: b :: d :: f :: rest3 =>
            match hexVal a, hexVal b, hexVal d, hexVal f with
            | some ha, some hb, some hd, some hf =>
              match parseStringChars rest3 with
              | .ok (cs, r) =>
                .ok (Char.ofNat (((ha * 16 + hb) * 16 + hd) * 16 + hf) :: cs, r)
              | .error msg => .error msg
            | _, _, _, _ => .error "invalid unicode escape"
          | _ => .error "invalid unicode escape"
        else
          match escDecode e with
          | some d =>
            match parseStringChars rest2 with
            | .ok (cs, r) => .ok (d :: cs, r)
            | .error msg => .error msg
          | none => .error "invalid escape character"
    else
      match parseStringChars rest with
      | .ok (cs, r) => .ok (c :: cs, r)
      | .error msg => .error msg

mutual

/-- Fuel-bounded recursive-descent JSON value parser: returns the parsed
value and the remaining input. -/
def parseValueFuel : Nat → List Char → Except String (JsonValue × List Char)
  | 0, _ => .error "recursion limit exceeded"
  | _ + 1, [] => .error "unexpected end of input"
  | fuel + 1, c :: rest =>
    if c = '"' then
      match parseStringChars rest with
      | .ok (cs, r) => .ok (.str (String.mk cs), r)
      | .error msg => .error msg
    else if c = 'n' then
      match rest with
      | 'u' :: 'l' :: 'l' :: r => .ok (.null, r)
      | _ => .error "expected null"
    else if c = 't' then
      match rest with
      | 'r' :: 'u' :: 'e' :: r => .ok (.bool true, r)
      | _ => .error "expected true"
    else if c = 'f' then
      match rest with
      | 'a' :: 'l' :: 's' :: 'e' :: r => .ok (.bool false, r)
      | _ => .error "expected false"
    else if c = '-' then
      match takeDigits rest with
      | ([], _) => .error "expected digits after minus sign"
      | (ds, r) => .ok (.num (-(digitsToNat ds : Int)), r)
    else if isDigit c then
      match takeDigits rest with
      | (ds, r) => .ok (.num (digitsToNat (c :: ds) : Int), r)
    else if c = '[' then
      match skipWs rest with
      | ']' :: r => .ok (.arr [], r)
      | r1 =>
        match parseItemsFuel fuel r1 with
        | .ok (items, r) => .ok (.arr items, r)
        | .error msg => .error msg
    else if c = '\x7b' then
      match skipWs rest with
      | '\x7d' :: r => .ok (.obj [], r)
      | r1 =>
        match parseFieldsFuel fuel r1 with
        | .ok (fields, r) => .ok (.obj fields, r)
        | .error msg => .error msg
    else .error "unexpected character"

/-- Parse one or more comma-separated array items up to the closing
bracket. -/
def parseItemsFuel : Nat → List Char → Except String (List JsonValue × List Char)
  | 0, _ => .error "recursion limit exceeded"
  | fuel + 1, l =>
    match parseValueFuel fuel (skipWs l) with
    | .error msg => .error msg
    | .ok (v, r) =>
      match skipWs r with
      | ',' :: r2 =>
        match parseItemsFuel fuel r2 with
        | .ok (items, r3) => .ok (v :: items, r3)
        | .error msg => .error msg
      | ']' :: r2 => .ok ([v], r2)
      | _ => .error "expected comma or closing bracket"

/-- Parse one or more comma-separated object fields up to the closing
brace. -/
def parseFieldsFuel : Nat → List Char → Except String (List (String × JsonValue) × List Char)
  | 0, _ => .error "recursion limit exceeded"
  | fuel + 1, l =>
    match skipWs l with
    | '"' :: r =>
      match parseStringChars r with
      | .error msg => .error msg
      | .ok (cs, r1) =>
        match skipWs r1 with
        | ':' :: r2 =>
          match parseValueFuel fuel (skipWs r2) with
          | .error msg => .error msg
          | .ok (v, r3) =>
            match skipWs r3 with
            | ',' :: r4 =>
              match parseFieldsFuel fuel r4 with
              | .ok (fields, r5) => .ok ((String.mk cs, v) :: fields, r5)
              | .error msg => .error msg
            | '\x7d' :: r4 => .ok ([(String.mk cs, v)], r4)
            | _ => .error "expected comma or closing brace"
        | _ => .error "expected colon"
    | _ => .error "expected field name"

end

/-- Parse a complete JSON document (a single value with surrounding
whitespace). -/
def jsonParse (s : String) : Except String JsonValue :=
  match parseValueFuel (s.length + 16) (skipWs s.toList) with
  | .ok (v, rest) => if skipWs rest = [] then .ok v else .error "trailing characters"
  | .error msg => .error msg

/-- A concrete executable JSON codec in serde_json's format, used to
instantiate the codec parameter in witnesses. -/
def serdeJson : Codec where
  to_string v := .ok (jsonSerialize v)
  from_str := jsonParse

/-- An empty, never-failing engine state. -/
def demoDb : SledDb where
  entries := fun _ => none
  failOn := fun _ => none

/-- A store over the empty engine state. -/
def demoStore : SledStore :=
  { db := demoDb, db_name := DEFAUTL_NAMESPACE_NAME }

/-- A never-failing engine state holding `"42"` under key "number". -/
def demoDbStocked : SledDb where
  entries := fun k => if k = "number" then some "42" else none
  failOn := fun _ => none

/-- A store over the stocked engine state. -/
def demoStoreStocked : SledStore :=
  { db := demoDbStocked, db_name := DEFAUTL_NAMESPACE_NAME }

/-- An engine state holding entries under "a", "b", "c" whose operations
fail on key "b" with an I/O error. -/
def demoDbFailing : SledDb where
  entries := fun k =>
    if k = "a" then some "1" else if k = "b" then some "2"
    else if k = "c" then some "3" else none
  failOn := fun k => if k = "b" then some "sled io error" else none

/-- A store over the failing engine state. -/
def demoStoreFailing : SledStore :=
  { db := demoDbFailing, db_name := DEFAUTL_NAMESPACE_NAME }

/-- Witness for C3 at a concrete input: removing ["a", "b", "c"] on a
store whose engine fails on "b" removes "a", returns the QueryError for
"b", and leaves "c" untouched. -/
theorem sledRemoveMany_sequentialHalt_witness :
    demoStoreFailing.db.failOn "a" = none ∧
      demoStoreFailing.db.failOn "b" = some "sled io error" ∧
      SledStore.remove_many demoStoreFailing ["a", "b", "c"] =
        ({ demoStoreFailing with db := dbEraseAll demoStoreFailing.db ["a"] },
          .error (.QueryError "sled io error")) :=
  ⟨rfl, rfl,
    (sledRemoveMany_sequentialHalt demoStoreFailing).1 ["a"] "b" ["c"]
      "sled io error" (by decide) rfl⟩

/-- Witness for C4 at a concrete input: the number 42 round-trips through
the concrete JSON codec, and `set "number" 42 none` then `get "number"`
returns 42 on the empty store. -/
theorem sledSetGet_roundtrip_witness :
    serdeJson.to_string (JsonValue.num 42) = .ok "42" ∧
      serdeJson.from_str "42" = .ok (JsonValue.num 42) ∧
      demoStore.db.failOn "number" = none ∧
      (SledStore.set serdeJson demoStore "number" (JsonValue.num 42) none).2 = .ok () ∧
      SledStore.get serdeJson
          (SledStore.set serdeJson demoStore "number" (JsonValue.num 42) none).1 "number" =
        .ok (some (JsonValue.num 42)) :=
  ⟨rfl, rfl, rfl,
    sledSetGet_roundtrip serdeJson demoStore "number" (JsonValue.num 42) "42" rfl rfl rfl⟩

/-- Witness for C6 at a concrete input: on a store holding "42" under
"number", `get "number"` decodes the stored bytes and returns 42. -/
theorem sledGet_distinguishes_witness :
    demoStoreStocked.db.failOn "number" = none ∧
      demoStoreStocked.db.entries "number" = some "42" ∧
      serdeJson.from_str "42" = .ok (JsonValue.num 42) ∧
      SledStore.get serdeJson demoStoreStocked "number" = .ok (some (JsonValue.num 42)) :=
  ⟨rfl, rfl, rfl,
    ((sledGet_distinguishesAbsenceFromCodecFailure serdeJson demoStoreStocked
          "number" rfl).2 "42" rfl).2 (JsonValue.num 42) rfl⟩

/-- Witness for C7 at a concrete input: removing the absent key "cache"
from the empty store succeeds, leaves it absent, and a second removal
succeeds without changing the state. -/
theorem sledRemove_idempotent_witness :
    demoStore.db.failOn "cache" = none ∧
      (SledStore.remove demoStore "cache").2 = .ok () ∧
      ((SledStore.remove demoStore "cache").1).db.entries "cache" = none ∧
      SledStore.remove (SledStore.remove demoStore "cache").1 "cache" =
        ((SledStore.remove demoStore "cache").1, .ok ()) :=
  ⟨rfl, (sledRemove_idempotent demoStore "cache" rfl).1,
    (sledRemove_idempotent demoStore "cache" rfl).2.1,
    (sledRemove_idempotent demoStore "cache" rfl).2.2⟩

/-- Witness for C8 at a concrete input: `set "number" true none` then
`set "number" 10 (some 1000)` then `get "number"` returns 10 on the empty
store. -/
theorem sledSet_lastWriteWins_witness :
    serdeJson.to_string (JsonValue.bool true) = .ok "true" ∧
      serdeJson.to_string (JsonValue.num 10) = .ok "10" ∧
      serdeJson.from_str "10" = .ok (JsonValue.num 10) ∧
      demoStore.db.failOn "number" = none ∧
      (SledStore.set serdeJson demoStore "number" (JsonValue.bool true) none).2 = .ok () ∧
      (SledStore.set serdeJson
          (SledStore.set serdeJson demoStore "number" (JsonValue.bool true) none).1
          "number" (JsonValue.num 10) (some 1000)).2 = .ok () ∧
      SledStore.get serdeJson
          (SledStore.set serdeJson
            (SledStore.set serdeJson demoStore "number" (JsonValue.bool true) none).1
            "number" (JsonValue.num 10) (some 1000)).1 "number" =
        .ok (some (JsonValue.num 10)) :=
  ⟨rfl, rfl, rfl, rfl,
    sledSet_lastWriteWins serdeJson demoStore "number" (JsonValue.bool true)
      (JsonValue.num 10) none (some 1000) "true" "10" rfl rfl rfl rfl⟩

/-- Witness for C10 at a concrete input: writing or removing key "other"
leaves the `get` result at the distinct key "number" unchanged. -/
theorem sled_perKeyFrame_witness :
    ("number" : String) ≠ "other" ∧
      SledStore.get serdeJson
          (SledStore.set serdeJson demoStoreStocked "other" (JsonValue.str "x") none).1
          "number" =
        SledStore.get serdeJson demoStoreStocked "number" ∧
      SledStore.get serdeJson (SledStore.remove demoStoreStocked "other").1 "number" =
        SledStore.get serdeJson demoStoreStocked "number" :=
  ⟨by decide,
    (sled_perKeyFrame serdeJson demoStoreStocked "other" "number" (JsonValue.str "x")
      none (by decide)).1,
    (sled_perKeyFrame serdeJson demoStoreStocked "other" "number" (JsonValue.str "x")
      none (by decide)).2⟩
